import Mathlib

/-!
# Verification of the cyber_tool task-orchestration engine

A shallow embedding of `src/main.py` (the orchestration core of the
repository): the run state, the Scope Guard (`is_within_scope`), the Tool
Runner (`execute_security_tool`), the Planner (`plan_tasks`), the Analyzer
(`analyze_and_update`), the Retry Controller (`handle_failure`), the
LangGraph workflow `plan -> execute -> analyze -> {execute | END}` as an
explicit step function, and the audit-report assembly
(`generate_audit_reports`).

Modelling conventions:
* Python dict-based Task records come with optional keys, so each `Task`
  field is an `Option`: `none` means "key absent" (the initial seed record
  `\x7b"instruction": ...\x7d` only has its `instruction` key).  Reading a
  missing key is a `KeyError`, which the embedding surfaces through
  `Except PyErr`.
* In an execution-result dict the `"error"` key can be *present with value
  `None`* (a successful `subprocess.run`), so `ExecResult.error` is an
  `Option (Option String)`: `none` = key absent, `some none` = key present
  holding Python `None`, `some (some e)` = key present holding a string.
  Python's `"Out-of-scope" in result.get("error", "")` raises `TypeError`
  when the stored value is `None`; the embedding mirrors that.
* The external process invoked by `subprocess.run` is an oracle value
  `SubprocessOutcome` (normal completion with return code/stdout/stderr,
  timeout, or any other raised invocation fault).  `execute_security_tool`
  also returns how many external processes it spawned (`0` on the
  out-of-scope rejection path, `1` otherwise), which makes "no process is
  spawned" a provable statement.
* `datetime.datetime.now()` readings are threaded as explicit `String`
  clock values.
-/

namespace CyberTool

/-- Python exceptions the embedded code can raise. -/
inductive PyErr
  | keyError (key : String)
  | indexError
  | typeError
deriving DecidableEq

/-- A Python task dict.  Every field models one key; `none` = key absent.
The Planner's seed record carries only `instruction`; planned tasks carry
`tool`, `command`, `target` and `status` (`src/main.py` lines 133-147). -/
structure Task where
  instruction : Option String := none
  tool : Option String := none
  command : Option String := none
  target : Option String := none
  status : Option String := none
deriving DecidableEq

/-- An execution-result dict as built by `execute_security_tool`
(`src/main.py` lines 46-86).  `output` is `none` when the key is absent
(rejection/timeout/fault results); `error` distinguishes key-absent
(`none`), key-present-`None` (`some none`) and key-present-string. -/
structure ExecResult where
  tool : String
  command : String
  status : String
  output : Option String := none
  error : Option (Option String) := none
  timestamp : String
deriving DecidableEq

/-- The pydantic `SecurityState` model (`src/main.py` lines 20-27),
with its Python default values. -/
structure SecurityState where
  task_list : List Task := []
  executed_tasks : List ExecResult := []
  scope : List String := []
  scope_violations : List String := []
  current_task : Option Task := none
  retries : Nat := 0
  max_retries : Nat := 3
deriving DecidableEq

/-- What the external process of one `subprocess.run` call did: normal
completion (return code, stdout, stderr), timeout
(`subprocess.TimeoutExpired`), or any other raised invocation fault. -/
inductive SubprocessOutcome
  | completed (returncode : Int) (stdout stderr : String)
  | timedOut
  | raised (msg : String)
deriving DecidableEq

/-- `needle` starts the list `l` (Python `str.startswith`, on chars). -/
def listBeginsWith : List Char → List Char → Bool
  | _, [] => true
  | [], _ :: _ => false
  | a :: as, b :: bs => a == b && listBeginsWith as bs

/-- `needle` occurs contiguously inside `l` (Python's `needle in hay`). -/
def listHasSub : List Char → List Char → Bool
  | [], needle => needle.isEmpty
  | a :: t, needle => listBeginsWith (a :: t) needle || listHasSub t needle

/-- Python's substring test `needle in hay` on strings. -/
def strContains (hay needle : String) : Bool :=
  listHasSub hay.toList needle.toList

/-- Python's `str.lower()`, character by character (`Char.toLower` lowers
the ASCII range, which covers every instruction string the code compares
against its ASCII keyword literals). -/
def strLower (s : String) : String :=
  String.mk (s.data.map Char.toLower)

/-- The mathematical notion of "occurs as a contiguous substring",
independent of the executable `strContains`: some split of `hay`'s
characters exhibits `needle` in the middle. -/
def SubstringOf (needle hay : String) : Prop :=
  ∃ p q : List Char, hay.toList = p ++ needle.toList ++ q

/-- Scope Guard, `is_within_scope` (`src/main.py` lines 30-35): the loop
returns `True` at the first scope entry related to the target by
containment in either direction, else `False`. -/
def is_within_scope (target : String) (scope : List String) : Bool :=
  scope.any fun scope_item =>
    strContains target scope_item || strContains scope_item target

/-- The nmap task literal the Planner builds (`src/main.py` lines 133-140). -/
def nmapTask (tgt : String) : Task :=
  { tool := some "nmap"
    command := some ("nmap -p 1-1000 " ++ tgt)
    target := some tgt
    status := some "pending" }

/-- The gobuster task literal built by the Planner (lines 141-147) and the
Analyzer (lines 175-180) — the same dict literal in both places. -/
def gobusterTask (tgt : String) : Task :=
  { tool := some "gobuster"
    command := some ("gobuster dir -u http://" ++ tgt ++ " -w common.txt")
    target := some tgt
    status := some "pending" }

/-- The result dict built on the out-of-scope rejection path
(`src/main.py` lines 44-52). -/
def oosResult (tool command now : String) : ExecResult :=
  { tool := tool
    command := command
    status := "failed"
    output := none
    error := some (some ("Out-of-scope command attempted: " ++ command))
    timestamp := now }

/-- Tool Runner, `execute_security_tool` (`src/main.py` lines 38-86).
Reads `task["command"]`, `task["tool"]`, `task["target"]` (KeyError when a
key is absent, in that order, lines 40-42); rejects without spawning when
the Scope Guard fails (lines 44-52); otherwise the subprocess outcome is
the oracle value.  The second component counts spawned processes: `0` on
the rejection path, `1` whenever `subprocess.run` was entered. -/
def execute_security_tool (task : Task) (scope : List String)
    (outcome : SubprocessOutcome) (now : String) :
    Except PyErr (ExecResult × Nat) :=
  match task.command with
  | none => Except.error (PyErr.keyError "command")
  | some command =>
    match task.tool with
    | none => Except.error (PyErr.keyError "tool")
    | some tool =>
      match task.target with
      | none => Except.error (PyErr.keyError "target")
      | some target =>
        if is_within_scope target scope then
          match outcome with
          | SubprocessOutcome.completed rc stdout stderr =>
            Except.ok ({ tool := tool
                         command := command
                         status := if rc == 0 then "success" else "failed"
                         output := some stdout
                         error := some (if rc == 0 then none else some stderr)
                         timestamp := now }, 1)
          | SubprocessOutcome.timedOut =>
            Except.ok ({ tool := tool
                         command := command
                         status := "failed"
                         output := none
                         error := some (some "Command timed out after 300 seconds")
                         timestamp := now }, 1)
          | SubprocessOutcome.raised msg =>
            Except.ok ({ tool := tool
                         command := command
                         status := "failed"
                         output := none
                         error := some (some msg)
                         timestamp := now }, 1)
        else
          Except.ok (oosResult tool command now, 0)

/-- The scope-violation bookkeeping of `execute_task` (`src/main.py` lines
161-162): `if "Out-of-scope" in result.get("error", ""):
state.scope_violations.append(result["error"])`.  A present-`None` error
value makes the `in` test raise `TypeError`; an absent key defaults to
`""`, which contains no `"Out-of-scope"`. -/
def recordViolation (result : ExecResult) (s : SecurityState) :
    Except PyErr SecurityState :=
  match result.error with
  | some none => Except.error PyErr.typeError
  | some (some e) =>
    if strContains e "Out-of-scope" then
      Except.ok { s with scope_violations := s.scope_violations ++ [e] }
    else Except.ok s
  | none => Except.ok s

/-- The list comprehension `[t for t in state.task_list if t["status"] ==
"pending"]` (`src/main.py` line 164): reading `t["status"]` raises
`KeyError` on a record without the key. -/
def filterPendingAux : List Task → Except PyErr (List Task)
  | [] => Except.ok []
  | t :: ts =>
    match t.status with
    | none => Except.error (PyErr.keyError "status")
    | some st =>
      match filterPendingAux ts with
      | Except.error e => Except.error e
      | Except.ok rest =>
        Except.ok (if st == "pending" then t :: rest else rest)

/-- EXECUTE node, `execute_task` (`src/main.py` lines 153-166): run the
current task, append the result, record a violation if the error text
mentions `"Out-of-scope"`, keep only the `"pending"`-status tasks and point
`current_task` at the first of them (or `None`). -/
def execute_task (outcome : SubprocessOutcome) (now : String)
    (s : SecurityState) : Except PyErr SecurityState :=
  match s.current_task with
  | none => Except.ok s
  | some task =>
    match execute_security_tool task s.scope outcome now with
    | Except.error e => Except.error e
    | Except.ok (result, _) =>
      match recordViolation result
          { s with executed_tasks := s.executed_tasks ++ [result] } with
      | Except.error e => Except.error e
      | Except.ok s2 =>
        match filterPendingAux s2.task_list with
        | Except.error e => Except.error e
        | Except.ok newList =>
          Except.ok { s2 with task_list := newList
                              current_task := newList.head? }

/-- `state.task_list[0]["instruction"] if state.task_list else ""`
(`src/main.py` line 130). -/
def seedInstruction (s : SecurityState) : Except PyErr String :=
  match s.task_list.head? with
  | none => Except.ok ""
  | some t =>
    match t.instruction with
    | none => Except.error (PyErr.keyError "instruction")
    | some i => Except.ok i

/-- First Planner rule (`src/main.py` lines 132-140): on `"scan"` and
`"ports"` both occurring in the lowercased instruction, *replace* the task
list with the single nmap task against `scope[0]` (IndexError on an empty
scope). -/
def planPortsStage (low : String) (s : SecurityState) :
    Except PyErr SecurityState :=
  if strContains low "scan" && strContains low "ports" then
    match s.scope.head? with
    | none => Except.error PyErr.indexError
    | some tgt => Except.ok { s with task_list := [nmapTask tgt] }
  else Except.ok s

/-- Second Planner rule (`src/main.py` lines 141-147): on `"directories"`
occurring, *append* the gobuster task against `scope[0]`. -/
def planDirsStage (low : String) (s : SecurityState) :
    Except PyErr SecurityState :=
  if strContains low "directories" then
    match s.scope.head? with
    | none => Except.error PyErr.indexError
    | some tgt =>
      Except.ok { s with task_list := s.task_list ++ [gobusterTask tgt] }
  else Except.ok s

/-- `state.current_task = state.task_list[0]` (`src/main.py` line 149):
IndexError on an empty task list. -/
def setCurrentFirst (s : SecurityState) : Except PyErr SecurityState :=
  match s.task_list.head? with
  | none => Except.error PyErr.indexError
  | some t => Except.ok { s with current_task := some t }

/-- PLAN node, `plan_tasks` (`src/main.py` lines 128-150). -/
def plan_tasks (s : SecurityState) : Except PyErr SecurityState :=
  match seedInstruction s with
  | Except.error e => Except.error e
  | Except.ok instruction =>
    match planPortsStage (strLower instruction) s with
    | Except.error e => Except.error e
    | Except.ok s1 =>
      match planDirsStage (strLower instruction) s1 with
      | Except.error e => Except.error e
      | Except.ok s2 => setCurrentFirst s2

/-- ANALYZE node, `analyze_and_update` (`src/main.py` lines 169-182): when
the most recent result is a successful nmap run whose captured output
contains `"80"` or `"443"` as text, append the gobuster task against
`scope[0]` (IndexError on empty scope); otherwise leave the state alone.
An empty `executed_tasks` gives `last_result = \x7b\x7d`, whose `.get`
lookups return `None` and fail the `== "nmap"` test. -/
def analyze_and_update (s : SecurityState) : Except PyErr SecurityState :=
  match s.executed_tasks.getLast? with
  | none => Except.ok s
  | some last =>
    if last.tool = "nmap" ∧ last.status = "success" then
      if strContains (last.output.getD "") "80"
          || strContains (last.output.getD "") "443" then
        match s.scope.head? with
        | none => Except.error PyErr.indexError
        | some tgt =>
          Except.ok { s with task_list := s.task_list ++ [gobusterTask tgt] }
      else Except.ok s
    else Except.ok s

/-- `last_result.get("status")` of `handle_failure` (`src/main.py` lines
187-189): `None` for an empty `executed_tasks` (where `last_result = \x7b\x7d`),
else the last result's status string. -/
def lastResultStatus (s : SecurityState) : Option String :=
  match s.executed_tasks.getLast? with
  | none => none
  | some r => some r.status

/-- Retry Controller, `handle_failure` (`src/main.py` lines 185-193): on a
failed last result with retry budget left, increment `retries`, log
`state.current_task['command']` (a `TypeError` on `None`, a `KeyError` on a
record without the key — the f-string is evaluated eagerly) and route to
`"execute"`; otherwise route to `"continue"` (which the graph maps to END). -/
def handle_failure (s : SecurityState) : Except PyErr (String × SecurityState) :=
  if lastResultStatus s = some "failed" ∧ s.retries < s.max_retries then
    match s.current_task with
    | none => Except.error PyErr.typeError
    | some t =>
      match t.command with
      | none => Except.error (PyErr.keyError "command")
      | some _ => Except.ok ("execute", { s with retries := s.retries + 1 })
  else Except.ok ("continue", s)

/-- The workflow graph's nodes (`src/main.py` lines 196-207):
entry point `plan`, edges `plan → execute → analyze`, and a conditional
edge out of `analyze` driven by `handle_failure` mapping `"execute"` back
to `execute` and `"continue"` to END (`done`). -/
inductive Node
  | plan
  | execute
  | analyze
  | done
deriving DecidableEq

/-- One transition of the compiled workflow.  The Tool Runner's subprocess
outcome and clock reading for the i-th executed task come from the oracle
functions at index i (`s.executed_tasks.length` counts the results recorded
so far).  The conditional edge evaluates `handle_failure` right after the
`analyze` node; the state it mutated (the `retries` increment) is the state
the next node sees. -/
def stepNode (oracle : Nat → SubprocessOutcome) (clock : Nat → String) :
    Node → SecurityState → Except PyErr (Node × SecurityState)
  | Node.plan, s =>
    match plan_tasks s with
    | Except.error e => Except.error e
    | Except.ok s' => Except.ok (Node.execute, s')
  | Node.execute, s =>
    match execute_task (oracle s.executed_tasks.length)
        (clock s.executed_tasks.length) s with
    | Except.error e => Except.error e
    | Except.ok s' => Except.ok (Node.analyze, s')
  | Node.analyze, s =>
    match analyze_and_update s with
    | Except.error e => Except.error e
    | Except.ok s' =>
      match handle_failure s' with
      | Except.error e => Except.error e
      | Except.ok (decision, s'') =>
        Except.ok (if decision = "execute" then Node.execute else Node.done, s'')
  | Node.done, s => Except.ok (Node.done, s)

/-- Run the workflow from a node for at most `fuel` transitions.
`Except.ok (some s)` = reached the terminal END (`done`) node with final
state `s`; `Except.error e` = a node raised the uncaught Python exception
`e`; `Except.ok none` = the step budget ran out first (the termination
theorem shows a budget of 10 never does). -/
def runFrom (oracle : Nat → SubprocessOutcome) (clock : Nat → String) :
    Nat → Node → SecurityState → Except PyErr (Option SecurityState)
  | 0, _, _ => Except.ok none
  | Nat.succ fuel, n, s =>
    match n with
    | Node.done => Except.ok (some s)
    | _ =>
      match stepNode oracle clock n s with
      | Except.error e => Except.error e
      | Except.ok (n', s') => runFrom oracle clock fuel n' s'

/-- The initial state `run_security_scan` builds (`src/main.py` lines
214-217): the seed task list holding only the instruction record, the
caller's scope, and the pydantic defaults (`retries = 0`,
`max_retries = 3`). -/
def initState (instruction : String) (scope : List String) : SecurityState :=
  { task_list := [{ instruction := some instruction }]
    scope := scope }

/-- Entrypoint `run_security_scan` (`src/main.py` lines 212-221):
`app.invoke(initial_state)` drives the graph from the entry point `plan`
to END.  Ten transitions always suffice (`run_halts_within_budget`), so the
fuel is fixed at 10; the outcome is the final state or the uncaught
exception. -/
def run_security_scan (oracle : Nat → SubprocessOutcome) (clock : Nat → String)
    (instruction : String) (scope : List String) :
    Except PyErr (Option SecurityState) :=
  runFrom oracle clock 10 Node.plan (initState instruction scope)

/-- The structured (machine-readable) audit report: the `audit_report`
dict `generate_audit_reports` serializes with `json.dump` to the fixed
path `logs/audit_report.json` (`src/main.py` lines 91-100). -/
structure AuditReport where
  timestamp : String
  target_scope : List String
  executed_tasks : List ExecResult
  scope_violations : List String
deriving DecidableEq

/-- Report Builder (`src/main.py` lines 89-100, structured report):
the dict holds `str(datetime.datetime.now())` read at *report-generation*
time — modelled as the explicit `now` argument — together with the final
state's scope, executed tasks and scope violations.  `json.dump` with
`indent=2` is a deterministic, injective serialization of this record, so
two serialized reports are byte-identical exactly when the records are
equal. -/
def generate_audit_reports (s : SecurityState) (now : String) : AuditReport :=
  { timestamp := now
    target_scope := s.scope
    executed_tasks := s.executed_tasks
    scope_violations := s.scope_violations }

/-! ## Substring machinery: `strContains` computes `SubstringOf` -/

theorem listBeginsWith_iff (l n : List Char) :
    listBeginsWith l n = true ↔ ∃ q, l = n ++ q := by
  induction n generalizing l with
  | nil => simp [listBeginsWith]
  | cons b bs ih =>
    cases l with
    | nil => simp [listBeginsWith]
    | cons a as =>
      simp only [listBeginsWith, Bool.and_eq_true, beq_iff_eq, ih,
        List.cons_append, List.cons.injEq]
      constructor
      · rintro ⟨rfl, q, rfl⟩
        exact ⟨q, rfl, rfl⟩
      · rintro ⟨q, rfl, rfl⟩
        exact ⟨rfl, q, rfl⟩

theorem listHasSub_iff (l n : List Char) :
    listHasSub l n = true ↔ ∃ p q, l = p ++ n ++ q := by
  induction l with
  | nil =>
    simp only [listHasSub, List.isEmpty_iff]
    constructor
    · rintro rfl
      exact ⟨[], [], rfl⟩
    · rintro ⟨p, q, h⟩
      have h' := h.symm
      simp only [List.append_eq_nil] at h'
      exact h'.1.2
  | cons a as ih =>
    simp only [listHasSub, Bool.or_eq_true, listBeginsWith_iff, ih]
    constructor
    · rintro (⟨q, hq⟩ | ⟨p, q, hpq⟩)
      · exact ⟨[], q, by simpa using hq⟩
      · exact ⟨a :: p, q, by simp [hpq]⟩
    · rintro ⟨p, q, hpq⟩
      cases p with
      | nil =>
        exact Or.inl ⟨q, by simpa using hpq⟩
      | cons x xs =>
        simp only [List.cons_append, List.cons.injEq] at hpq
        exact Or.inr ⟨xs, q, hpq.2⟩

theorem strContains_iff (hay needle : String) :
    strContains hay needle = true ↔ SubstringOf needle hay := by
  simpa [strContains, SubstringOf] using listHasSub_iff hay.toList needle.toList

theorem strToList_append (a b : String) :
    (a ++ b).toList = a.toList ++ b.toList := rfl

/-- Every out-of-scope violation message contains the `"Out-of-scope"`
marker that `execute_task` looks for, whatever the offending command is. -/
theorem oos_message_has_marker (c : String) :
    strContains ("Out-of-scope command attempted: " ++ c) "Out-of-scope" = true := by
  rw [strContains_iff]
  refine ⟨[], (" command attempted: " ++ c).toList, ?_⟩
  rw [strToList_append, strToList_append]
  rfl

/-! ## The pending-task filter -/

/-- When every task record carries a `status` key, the comprehension of
`src/main.py` line 164 succeeds and computes an ordinary filter. -/
theorem filterPendingAux_ok (l : List Task)
    (h : ∀ t ∈ l, (t.status).isSome = true) :
    filterPendingAux l = Except.ok (l.filter fun t => t.status == some "pending") := by
  induction l with
  | nil => rfl
  | cons t ts ih =>
    have ht : (t.status).isSome = true := h t (by simp)
    obtain ⟨st, hst⟩ := Option.isSome_iff_exists.mp ht
    have hts := ih fun x hx => h x (by simp [hx])
    have hcond : (t.status == some "pending") = (st == "pending") := by
      rw [hst]
      cases hb : (st == "pending") <;> simp_all
    simp only [filterPendingAux, hst, hts, List.filter_cons, hcond]
    rfl

/-- Whenever the comprehension of `src/main.py` line 164 returns at all,
it returns the pending-status filter of the task list. -/
theorem filterPendingAux_eq (l l' : List Task)
    (h : filterPendingAux l = Except.ok l') :
    l' = l.filter fun t => t.status == some "pending" := by
  induction l generalizing l' with
  | nil =>
    simp only [filterPendingAux, Except.ok.injEq] at h
    simp [← h]
  | cons t ts ih =>
    simp only [filterPendingAux] at h
    cases hst : t.status with
    | none => simp [hst] at h
    | some st =>
      rw [hst] at h
      cases hrest : filterPendingAux ts with
      | error e => rw [hrest] at h; exact absurd h (by simp)
      | ok rest =>
        rw [hrest] at h
        simp only [Except.ok.injEq] at h
        have hr := ih rest hrest
        subst hr
        have h2 : (t.status == some "pending") = (st == "pending") := by
          rw [hst]
          rfl
        cases hb : (st == "pending") with
        | false =>
          rw [hb] at h
          simp only [Bool.false_eq_true, if_false] at h
          simp [List.filter_cons, h2, hb, ← h]
        | true =>
          rw [hb] at h
          simp only [if_true] at h
          simp [List.filter_cons, h2, hb, ← h]

/-! ## Frame lemmas: which nodes touch the retry counters -/

theorem planPortsStage_retries (low : String) (s s' : SecurityState)
    (h : planPortsStage low s = Except.ok s') :
    s'.retries = s.retries ∧ s'.max_retries = s.max_retries := by
  unfold planPortsStage at h
  split at h
  · cases hh : s.scope.head? with
    | none => rw [hh] at h; exact absurd h (by simp)
    | some tgt => rw [hh] at h; simp only [Except.ok.injEq] at h; subst h; exact ⟨rfl, rfl⟩
  · simp only [Except.ok.injEq] at h; subst h; exact ⟨rfl, rfl⟩

theorem planDirsStage_retries (low : String) (s s' : SecurityState)
    (h : planDirsStage low s = Except.ok s') :
    s'.retries = s.retries ∧ s'.max_retries = s.max_retries := by
  unfold planDirsStage at h
  split at h
  · cases hh : s.scope.head? with
    | none => rw [hh] at h; exact absurd h (by simp)
    | some tgt => rw [hh] at h; simp only [Except.ok.injEq] at h; subst h; exact ⟨rfl, rfl⟩
  · simp only [Except.ok.injEq] at h; subst h; exact ⟨rfl, rfl⟩

theorem setCurrentFirst_retries (s s' : SecurityState)
    (h : setCurrentFirst s = Except.ok s') :
    s'.retries = s.retries ∧ s'.max_retries = s.max_retries := by
  unfold setCurrentFirst at h
  cases hh : s.task_list.head? with
  | none => rw [hh] at h; exact absurd h (by simp)
  | some t => rw [hh] at h; simp only [Except.ok.injEq] at h; subst h; exact ⟨rfl, rfl⟩


/-- The PLAN node never touches the retry counters. -/
theorem plan_tasks_retries (s s' : SecurityState)
    (h : plan_tasks s = Except.ok s') :
    s'.retries = s.retries ∧ s'.max_retries = s.max_retries := by
  unfold plan_tasks at h
  cases hseed : seedInstruction s with
  | error e => simp [hseed] at h
  | ok instruction =>
    simp only [hseed] at h
    cases h1 : planPortsStage (strLower instruction) s with
    | error e => simp [h1] at h
    | ok s1 =>
      simp only [h1] at h
      cases h2 : planDirsStage (strLower instruction) s1 with
      | error e => simp [h2] at h
      | ok s2 =>
        simp only [h2] at h
        obtain ⟨a1, b1⟩ := planPortsStage_retries _ _ _ h1
        obtain ⟨a2, b2⟩ := planDirsStage_retries _ _ _ h2
        obtain ⟨a3, b3⟩ := setCurrentFirst_retries _ _ h
        exact ⟨a3.trans (a2.trans a1), b3.trans (b2.trans b1)⟩

theorem recordViolation_frame (r : ExecResult) (s s' : SecurityState)
    (h : recordViolation r s = Except.ok s') :
    s'.retries = s.retries ∧ s'.max_retries = s.max_retries ∧
      s'.task_list = s.task_list ∧ s'.current_task = s.current_task ∧
      s'.executed_tasks = s.executed_tasks := by
  unfold recordViolation at h
  cases he : r.error with
  | none =>
    simp only [he, Except.ok.injEq] at h
    subst h
    exact ⟨rfl, rfl, rfl, rfl, rfl⟩
  | some v =>
    cases v with
    | none => simp [he] at h
    | some e =>
      simp only [he] at h
      split at h <;>
        (simp only [Except.ok.injEq] at h; subst h; exact ⟨rfl, rfl, rfl, rfl, rfl⟩)

/-- The EXECUTE node never touches the retry counters. -/
theorem execute_task_retries (outcome : SubprocessOutcome) (now : String)
    (s s' : SecurityState)
    (h : execute_task outcome now s = Except.ok s') :
    s'.retries = s.retries ∧ s'.max_retries = s.max_retries := by
  unfold execute_task at h
  cases hcur : s.current_task with
  | none =>
    simp only [hcur, Except.ok.injEq] at h
    subst h
    exact ⟨rfl, rfl⟩
  | some task =>
    simp only [hcur] at h
    cases hexec : execute_security_tool task s.scope outcome now with
    | error e => simp [hexec] at h
    | ok pr =>
      obtain ⟨result, cnt⟩ := pr
      simp only [hexec] at h
      cases hrec : recordViolation result
          { s with executed_tasks := s.executed_tasks ++ [result]
                   current_task := some task } with
      | error e => simp [hrec] at h
      | ok s2 =>
        simp only [hrec] at h
        cases hfil : filterPendingAux s2.task_list with
        | error e => simp [hfil] at h
        | ok newList =>
          simp only [hfil, Except.ok.injEq] at h
          subst h
          obtain ⟨a2, b2, -, -, -⟩ := recordViolation_frame _ _ _ hrec
          exact ⟨a2, b2⟩

/-- The ANALYZE node never touches the retry counters. -/
theorem analyze_retries (s s' : SecurityState)
    (h : analyze_and_update s = Except.ok s') :
    s'.retries = s.retries ∧ s'.max_retries = s.max_retries := by
  unfold analyze_and_update at h
  cases hl : s.executed_tasks.getLast? with
  | none =>
    simp only [hl, Except.ok.injEq] at h
    subst h
    exact ⟨rfl, rfl⟩
  | some last =>
    simp only [hl] at h
    split at h
    · split at h
      · cases hh : s.scope.head? with
        | none => simp [hh] at h
        | some tgt =>
          simp only [hh, Except.ok.injEq] at h
          subst h
          exact ⟨rfl, rfl⟩
      · simp only [Except.ok.injEq] at h
        subst h
        exact ⟨rfl, rfl⟩
    · simp only [Except.ok.injEq] at h
      subst h
      exact ⟨rfl, rfl⟩

/-- Retry Controller dichotomy: `handle_failure` either signals
`"continue"` with the state untouched, or — only when the last result
failed and `retries < max_retries` — signals `"execute"` with `retries`
bumped by exactly one and nothing else changed. -/
theorem handle_failure_cases (s : SecurityState) (d : String)
    (s' : SecurityState) (h : handle_failure s = Except.ok (d, s')) :
    (d = "continue" ∧ s' = s) ∨
      (d = "execute" ∧ s.retries < s.max_retries ∧
        s' = { s with retries := s.retries + 1 }) := by
  unfold handle_failure at h
  by_cases hcond : lastResultStatus s = some "failed" ∧ s.retries < s.max_retries
  · rw [if_pos hcond] at h
    cases hcur : s.current_task with
    | none => simp [hcur] at h
    | some t =>
      simp only [hcur] at h
      cases hc : t.command with
      | none => simp [hc] at h
      | some c =>
        simp only [hc, Except.ok.injEq, Prod.mk.injEq] at h
        exact Or.inr ⟨h.1.symm, hcond.2, h.2.symm⟩
  · rw [if_neg hcond] at h
    simp only [Except.ok.injEq, Prod.mk.injEq] at h
    exact Or.inl ⟨h.1.symm, h.2.symm⟩

/-! ## Termination measure for the workflow loop -/

/-- Position weight of a node along `plan → execute → analyze → done`. -/
def nodeWeight : Node → Nat
  | Node.plan => 3
  | Node.execute => 2
  | Node.analyze => 1
  | Node.done => 0

/-- Ranking function on workflow configurations: the remaining retry
budget dominates, the node position breaks ties. -/
def runMeasure (n : Node) (s : SecurityState) : Nat :=
  2 * (s.max_retries - s.retries) + nodeWeight n

/-- Every successful transition out of a non-terminal node strictly
decreases the ranking function: the only edge that moves "backwards"
(`analyze → execute`) pays for it by consuming one unit of retry budget
(`handle_failure` increments `retries` under the guard
`retries < max_retries`). -/
theorem stepNode_decreases (oracle : Nat → SubprocessOutcome)
    (clock : Nat → String) (n : Node) (s : SecurityState)
    (n' : Node) (s' : SecurityState)
    (h : stepNode oracle clock n s = Except.ok (n', s'))
    (hn : n ≠ Node.done) :
    runMeasure n' s' < runMeasure n s := by
  cases n with
  | done => exact absurd rfl hn
  | plan =>
    unfold stepNode at h
    cases hp : plan_tasks s with
    | error e => simp [hp] at h
    | ok s1 =>
      simp only [hp, Except.ok.injEq, Prod.mk.injEq] at h
      obtain ⟨rfl, rfl⟩ := h
      obtain ⟨hr, hm⟩ := plan_tasks_retries _ _ hp
      simp [runMeasure, nodeWeight, hr, hm]
  | execute =>
    unfold stepNode at h
    cases hp : execute_task (oracle s.executed_tasks.length)
        (clock s.executed_tasks.length) s with
    | error e => simp [hp] at h
    | ok s1 =>
      simp only [hp, Except.ok.injEq, Prod.mk.injEq] at h
      obtain ⟨rfl, rfl⟩ := h
      obtain ⟨hr, hm⟩ := execute_task_retries _ _ _ _ hp
      simp [runMeasure, nodeWeight, hr, hm]
  | analyze =>
    unfold stepNode at h
    cases ha : analyze_and_update s with
    | error e => simp [ha] at h
    | ok s1 =>
      simp only [ha] at h
      cases hf : handle_failure s1 with
      | error e => simp [hf] at h
      | ok p =>
        obtain ⟨d, s2⟩ := p
        simp only [hf, Except.ok.injEq, Prod.mk.injEq] at h
        obtain ⟨hn', rfl⟩ := h
        obtain ⟨hr1, hm1⟩ := analyze_retries _ _ ha
        rcases handle_failure_cases _ _ _ hf with ⟨hd, rfl⟩ | ⟨hd, hlt, hs2⟩
        · subst hd
          rw [if_neg (by decide)] at hn'
          subst hn'
          simp [runMeasure, nodeWeight, hr1, hm1]
        · subst hd
          rw [if_pos rfl] at hn'
          subst hn'
          subst hs2
          simp only [runMeasure, nodeWeight]
          omega

/-- With fuel exceeding the ranking function, the workflow interpreter
never exhausts its step budget: it reaches the terminal node or stops at
an uncaught exception. -/
theorem runFrom_halts (oracle : Nat → SubprocessOutcome)
    (clock : Nat → String) :
    ∀ (fuel : Nat) (n : Node) (s : SecurityState),
      runMeasure n s < fuel →
      runFrom oracle clock fuel n s ≠ Except.ok none := by
  intro fuel
  induction fuel with
  | zero => intro n s h; omega
  | succ f ih =>
    intro n s h
    cases n with
    | done => simp [runFrom]
    | plan =>
      cases hst : stepNode oracle clock Node.plan s with
      | error e => simp [runFrom, hst]
      | ok p =>
        obtain ⟨n', s'⟩ := p
        have hd := stepNode_decreases oracle clock Node.plan s n' s' hst (by simp)
        simp only [runFrom, hst]
        exact ih n' s' (by omega)
    | execute =>
      cases hst : stepNode oracle clock Node.execute s with
      | error e => simp [runFrom, hst]
      | ok p =>
        obtain ⟨n', s'⟩ := p
        have hd := stepNode_decreases oracle clock Node.execute s n' s' hst (by simp)
        simp only [runFrom, hst]
        exact ih n' s' (by omega)
    | analyze =>
      cases hst : stepNode oracle clock Node.analyze s with
      | error e => simp [runFrom, hst]
      | ok p =>
        obtain ⟨n', s'⟩ := p
        have hd := stepNode_decreases oracle clock Node.analyze s n' s' hst (by simp)
        simp only [runFrom, hst]
        exact ih n' s' (by omega)

/-! ## Reachability along the workflow and the retry-budget invariant -/

/-- Configurations reachable from a configuration by zero or more
successful workflow transitions (a raised exception ends a run and
produces no further configuration). -/
inductive Reaches (oracle : Nat → SubprocessOutcome) (clock : Nat → String) :
    Node → SecurityState → Node → SecurityState → Prop
  | refl (n : Node) (s : SecurityState) : Reaches oracle clock n s n s
  | step {n : Node} {s : SecurityState} {n' : Node} {s' : SecurityState}
      {n'' : Node} {s'' : SecurityState} :
      stepNode oracle clock n s = Except.ok (n', s') →
      Reaches oracle clock n' s' n'' s'' →
      Reaches oracle clock n s n'' s''

/-- One workflow transition preserves `retries ≤ max_retries`: the only
node that writes `retries` is the conditional edge, and it increments only
under the strict guard. -/
theorem stepNode_preserves_budget (oracle : Nat → SubprocessOutcome)
    (clock : Nat → String) (n : Node) (s : SecurityState)
    (n' : Node) (s' : SecurityState)
    (h : stepNode oracle clock n s = Except.ok (n', s'))
    (hinv : s.retries ≤ s.max_retries) :
    s'.retries ≤ s'.max_retries := by
  cases n with
  | done =>
    simp only [stepNode, Except.ok.injEq, Prod.mk.injEq] at h
    obtain ⟨-, rfl⟩ := h
    exact hinv
  | plan =>
    unfold stepNode at h
    cases hp : plan_tasks s with
    | error e => simp [hp] at h
    | ok s1 =>
      simp only [hp, Except.ok.injEq, Prod.mk.injEq] at h
      obtain ⟨-, rfl⟩ := h
      obtain ⟨hr, hm⟩ := plan_tasks_retries _ _ hp
      omega
  | execute =>
    unfold stepNode at h
    cases hp : execute_task (oracle s.executed_tasks.length)
        (clock s.executed_tasks.length) s with
    | error e => simp [hp] at h
    | ok s1 =>
      simp only [hp, Except.ok.injEq, Prod.mk.injEq] at h
      obtain ⟨-, rfl⟩ := h
      obtain ⟨hr, hm⟩ := execute_task_retries _ _ _ _ hp
      omega
  | analyze =>
    unfold stepNode at h
    cases ha : analyze_and_update s with
    | error e => simp [ha] at h
    | ok s1 =>
      simp only [ha] at h
      cases hf : handle_failure s1 with
      | error e => simp [hf] at h
      | ok p =>
        obtain ⟨d, s2⟩ := p
        simp only [hf, Except.ok.injEq, Prod.mk.injEq] at h
        obtain ⟨-, rfl⟩ := h
        obtain ⟨hr1, hm1⟩ := analyze_retries _ _ ha
        rcases handle_failure_cases _ _ _ hf with ⟨-, rfl⟩ | ⟨-, hlt, hs2⟩
        · omega
        · subst hs2
          simp only
          omega

/-- The invariant `retries ≤ max_retries` is carried along every
reachable configuration. -/
theorem reaches_preserves_budget (oracle : Nat → SubprocessOutcome)
    (clock : Nat → String) (n : Node) (s : SecurityState)
    (n' : Node) (s' : SecurityState)
    (h : Reaches oracle clock n s n' s')
    (hinv : s.retries ≤ s.max_retries) :
    s'.retries ≤ s'.max_retries := by
  induction h with
  | refl => exact hinv
  | step hstep _ ih =>
    exact ih (stepNode_preserves_budget _ _ _ _ _ _ hstep hinv)

/-! ## Claim theorems -/

/-- Claim C2: for every target `t` and scope list `S`, `within_scope(t, S)`
is true iff `t` contains some element of `S` as a substring or some element
of `S` contains `t` as a substring; in particular it is false for every `t`
when `S` is empty. -/
theorem within_scope_characterization (t : String) (S : List String) :
    (is_within_scope t S = true ↔
      ∃ x ∈ S, SubstringOf x t ∨ SubstringOf t x) ∧
    is_within_scope t ([] : List String) = false := by
  constructor
  · simp only [is_within_scope, List.any_eq_true, Bool.or_eq_true,
      strContains_iff]
  · rfl

/-- Claim C1: a task whose target fails the Scope Guard is rejected by the
Tool Runner with status `failed` and error exactly
`"Out-of-scope command attempted: " ++ command`, spawning no external
process (spawn count 0, and the oracle outcome is never consulted), and
the EXECUTE step records the result and appends exactly that one message
to `scope_violations`.  The well-formedness hypothesis `hwf` (every task
record in the list carries a `status` key) holds for every task the
Planner or Analyzer ever creates. -/
theorem exec_rejects_out_of_scope
    (s : SecurityState) (task : Task) (c tl tg : String)
    (outcome : SubprocessOutcome) (now : String)
    (hcur : s.current_task = some task)
    (hc : task.command = some c) (htl : task.tool = some tl)
    (htg : task.target = some tg)
    (hoos : is_within_scope tg s.scope = false)
    (hwf : ∀ t ∈ s.task_list, (t.status).isSome = true) :
    execute_security_tool task s.scope outcome now =
      Except.ok (oosResult tl c now, 0) ∧
    execute_task outcome now s = Except.ok
      { s with
        executed_tasks := s.executed_tasks ++ [oosResult tl c now]
        scope_violations :=
          s.scope_violations ++ ["Out-of-scope command attempted: " ++ c]
        task_list := s.task_list.filter fun t => t.status == some "pending"
        current_task :=
          (s.task_list.filter fun t => t.status == some "pending").head? } := by
  have hexec : execute_security_tool task s.scope outcome now =
      Except.ok (oosResult tl c now, 0) := by
    unfold execute_security_tool
    simp only [hc, htl, htg, hoos, Bool.false_eq_true, if_false]
  refine ⟨hexec, ?_⟩
  unfold execute_task
  simp only [hcur, hexec]
  have hrec : recordViolation (oosResult tl c now)
      { s with executed_tasks := s.executed_tasks ++ [oosResult tl c now]
               current_task := some task } = Except.ok
      { s with executed_tasks := s.executed_tasks ++ [oosResult tl c now]
               current_task := some task
               scope_violations :=
                 s.scope_violations ++
                   ["Out-of-scope command attempted: " ++ c] } := by
    unfold recordViolation
    simp only [oosResult]
    rw [if_pos (oos_message_has_marker c)]
  simp only [hrec]
  have hfil : filterPendingAux s.task_list =
      Except.ok (s.task_list.filter fun t => t.status == some "pending") :=
    filterPendingAux_ok _ hwf
  simp only [hfil]

/-- Witness for C1 at a concrete input: scope `["example.com"]`, a pending
nmap task targeting `"evil.org"`. -/
def evilTask : Task :=
  { tool := some "nmap"
    command := some "nmap -p 1-1000 evil.org"
    target := some "evil.org"
    status := some "pending" }

/-- The run state holding `evilTask` as current task under scope
`["example.com"]`. -/
def oosState : SecurityState :=
  { task_list := [evilTask]
    current_task := some evilTask
    scope := ["example.com"] }

/-- Witness for claim C1: the rejection theorem evaluated on `oosState`. -/
theorem exec_rejects_out_of_scope_witness :
    execute_security_tool evilTask oosState.scope SubprocessOutcome.timedOut
        "T2" = Except.ok (oosResult "nmap" "nmap -p 1-1000 evil.org" "T2", 0) ∧
    execute_task SubprocessOutcome.timedOut "T2" oosState = Except.ok
      { oosState with
        executed_tasks :=
          oosState.executed_tasks ++
            [oosResult "nmap" "nmap -p 1-1000 evil.org" "T2"]
        scope_violations :=
          oosState.scope_violations ++
            ["Out-of-scope command attempted: " ++ "nmap -p 1-1000 evil.org"]
        task_list := oosState.task_list.filter fun t => t.status == some "pending"
        current_task :=
          (oosState.task_list.filter fun t => t.status == some "pending").head? } :=
  exec_rejects_out_of_scope oosState evilTask "nmap -p 1-1000 evil.org" "nmap"
    "evil.org" SubprocessOutcome.timedOut "T2" rfl rfl rfl rfl (by decide)
    (by decide)

/-- Claim C3 (code bug): on the happy path — instruction
`"Scan example.com for open ports"`, scope `["example.com"]`, nmap exiting
with return code 0 — the EXECUTE node evaluates
`"Out-of-scope" in result.get("error", "")` where the `"error"` key is
*present with value `None`*, so the run raises `TypeError` instead of
returning a final state: task outcomes are NOT always captured as data and
the orchestration is NOT exception-free. -/
theorem run_raises_typeerror_on_success :
    run_security_scan
        (fun _ => SubprocessOutcome.completed 0
          "PORT STATE SERVICE\n80/tcp open http" "")
        (fun _ => "2025-01-01 10:00:00")
        "Scan example.com for open ports" ["example.com"] =
      Except.error PyErr.typeError := rfl

/-- Unrolling the interpreter one step out of the PLAN node when planning
raises: the run stops at that exception. -/
theorem runFrom_plan_error (oracle : Nat → SubprocessOutcome)
    (clock : Nat → String) (fuel : Nat) (s : SecurityState) (e : PyErr)
    (h : stepNode oracle clock Node.plan s = Except.error e) :
    runFrom oracle clock (fuel + 1) Node.plan s = Except.error e := by
  simp [runFrom, h]

/-- Claim C4, counterexample: with instruction `"hello"` (matching no
keyword) and scope `["example.com"]`, the run halts with an uncaught
`KeyError('command')` raised by the EXECUTE node on the leftover
instruction seed record — it never reaches the terminal DONE state, so
"for every instruction and scope, the run reaches DONE" is false. -/
theorem run_reaches_done_counterexample :
    run_security_scan (fun _ => SubprocessOutcome.timedOut) (fun _ => "T")
        "hello" ["example.com"] = Except.error (PyErr.keyError "command") :=
  rfl

/-- Claim C4 as amended: for every instruction, scope and subprocess
behaviour, the run halts within 10 state-machine transitions — reaching
DONE with a final state or aborting at an uncaught exception — because
each re-entry into EXECUTE requires a failed last result and strictly
increments `retries`, which is bounded by `max_retries`; the budget of 10
(= 2 + 2 * (max_retries + 1) with `max_retries = 3`) is never exhausted. -/
theorem run_halts_within_budget (oracle : Nat → SubprocessOutcome)
    (clock : Nat → String) (instruction : String) (scope : List String) :
    run_security_scan oracle clock instruction scope ≠ Except.ok none := by
  apply runFrom_halts
  show 2 * ((initState instruction scope).max_retries -
      (initState instruction scope).retries) + nodeWeight Node.plan < 10
  norm_num [initState, nodeWeight]

/-- Claim C5: at every configuration reachable in a run started by
`run_security_scan` (whose initial state has `retries = 0`,
`max_retries = 3`), the retry counter never exceeds `max_retries`: the
Retry Controller increments it only under the guard
`retries < max_retries` and otherwise signals `"continue"` (terminate). -/
theorem retries_never_exceed_max (oracle : Nat → SubprocessOutcome)
    (clock : Nat → String) (instruction : String) (scope : List String)
    (n : Node) (s : SecurityState)
    (h : Reaches oracle clock Node.plan (initState instruction scope) n s) :
    s.retries ≤ s.max_retries :=
  reaches_preserves_budget oracle clock _ _ _ _ h (Nat.zero_le _)

/-- Witness for claim C5 at the concrete initial configuration of a
`"Scan example.com for open ports"` run. -/
theorem retries_never_exceed_max_witness :
    (initState "Scan example.com for open ports" ["example.com"]).retries ≤
      (initState "Scan example.com for open ports" ["example.com"]).max_retries :=
  retries_never_exceed_max (fun _ => SubprocessOutcome.timedOut)
    (fun _ => "T") "Scan example.com for open ports" ["example.com"]
    Node.plan (initState "Scan example.com for open ports" ["example.com"])
    (Reaches.refl _ _)

/-- A pending nmap task against `"example.com"`, as the Planner creates it. -/
def exNmapTask : Task := nmapTask "example.com"

/-- A run state about to execute `exNmapTask` (the configuration the PLAN
node hands to EXECUTE for `"Scan example.com for open ports"`). -/
def exState : SecurityState :=
  { task_list := [exNmapTask]
    current_task := some exNmapTask
    scope := ["example.com"] }

/-- The timeout result the Tool Runner returns for `exNmapTask` when the
external nmap process exceeds its 300-second budget. -/
def timeoutResult : ExecResult :=
  { tool := "nmap"
    command := "nmap -p 1-1000 example.com"
    status := "failed"
    output := none
    error := some (some "Command timed out after 300 seconds")
    timestamp := "T1" }

/-- The state after that EXECUTE step. -/
def exStateAfter : SecurityState :=
  { exState with executed_tasks := [timeoutResult] }

/-- Claim C6, counterexample: after the EXECUTE step on `exState`, the
just-executed task is STILL in `task_list` with status `"pending"` and
`current_task` still points at it — `execute_security_tool` never writes
back a task status, so the pending-status filter of `src/main.py` line 164
drops nothing and the executed task is not consumed, contradicting "the
just-executed task is no longer in `task_list`". -/
theorem executed_task_remains_counterexample :
    execute_task SubprocessOutcome.timedOut "T1" exState =
        Except.ok exStateAfter ∧
    exNmapTask ∈ exStateAfter.task_list ∧
    exStateAfter.current_task = some exNmapTask ∧
    exNmapTask.status = some "pending" :=
  ⟨rfl, by decide, rfl, rfl⟩

/-- Claim C6 as amended: after every EXECUTE step that returns normally on
a selected task, `task_list` is exactly the sublist of tasks whose status
is `"pending"` and `current_task` is the first of them (or null); since
the Tool Runner leaves every status at `"pending"`, the just-executed task
*remains* in `task_list` (and `current_task` does not advance past it)
rather than being consumed. -/
theorem execute_task_filters_pending (outcome : SubprocessOutcome)
    (now : String) (s s' : SecurityState) (task : Task)
    (hcur : s.current_task = some task)
    (h : execute_task outcome now s = Except.ok s') :
    s'.task_list = s.task_list.filter (fun t => t.status == some "pending") ∧
    s'.current_task = s'.task_list.head? ∧
    (task ∈ s.task_list → task.status = some "pending" →
      task ∈ s'.task_list) := by
  unfold execute_task at h
  simp only [hcur] at h
  cases hexec : execute_security_tool task s.scope outcome now with
  | error e => simp [hexec] at h
  | ok pr =>
    obtain ⟨result, cnt⟩ := pr
    simp only [hexec] at h
    cases hrec : recordViolation result
        { s with executed_tasks := s.executed_tasks ++ [result]
                 current_task := some task } with
    | error e => simp [hrec] at h
    | ok s2 =>
      simp only [hrec] at h
      cases hfil : filterPendingAux s2.task_list with
      | error e => simp [hfil] at h
      | ok newList =>
        simp only [hfil, Except.ok.injEq] at h
        subst h
        obtain ⟨-, -, htl, -, -⟩ := recordViolation_frame _ _ _ hrec
        have hnew : newList =
            s.task_list.filter (fun t => t.status == some "pending") := by
          have := filterPendingAux_eq _ _ hfil
          rw [htl] at this
          exact this
        refine ⟨hnew, rfl, fun hmem hstat => ?_⟩
        rw [hnew]
        rw [List.mem_filter]
        exact ⟨hmem, by rw [hstat]; rfl⟩

/-- Witness for claim C6 as amended, evaluated at `exState`: the filter
keeps the still-pending executed task and `current_task` stays on it. -/
theorem execute_task_filters_pending_witness :
    exStateAfter.task_list =
        exState.task_list.filter (fun t => t.status == some "pending") ∧
    exStateAfter.current_task = exStateAfter.task_list.head? ∧
    exNmapTask ∈ exStateAfter.task_list := by
  obtain ⟨h1, h2, h3⟩ := execute_task_filters_pending
    SubprocessOutcome.timedOut "T1" exState exStateAfter exNmapTask rfl rfl
  exact ⟨h1, h2, h3 (by decide) rfl⟩

/-- Claim C7 (code bug): with instruction `"hello world"` (matching
neither keyword set) and scope `["example.com"]`, the Planner does NOT
leave the task list empty — the instruction seed record survives and
becomes `current_task` — and the run does not terminate with a report of
zero executions: the EXECUTE node reads `task["command"]` off the seed
record and raises an uncaught `KeyError('command')`. -/
theorem unmatched_instruction_crashes :
    plan_tasks (initState "hello world" ["example.com"]) =
      Except.ok { initState "hello world" ["example.com"] with
                  current_task := some { instruction := some "hello world" } } ∧
    run_security_scan (fun _ => SubprocessOutcome.timedOut) (fun _ => "T")
        "hello world" ["example.com"] =
      Except.error (PyErr.keyError "command") :=
  ⟨rfl, rfl⟩

/-- The Analyzer's firing condition, stated over the mathematical
substring predicate: the most recent execution result exists, came from
the port scanner, succeeded, and its captured output contains `"80"` or
`"443"` as text. -/
def AnalyzerFires (s : SecurityState) : Prop :=
  ∃ r, s.executed_tasks.getLast? = some r ∧ r.tool = "nmap" ∧
    r.status = "success" ∧
    (SubstringOf "80" (r.output.getD "") ∨ SubstringOf "443" (r.output.getD ""))

/-- Claim C8: on a state whose scope starts with `tgt`, the Analyzer
appends exactly one new pending gobuster (directory-discovery) task
targeting `tgt = scope[0]` when its firing condition holds, and returns
the state unchanged when it does not (other tools, failed results, no
`"80"`/`"443"` indicator, or no results at all). -/
theorem analyzer_appends_on_web_ports (s : SecurityState) (tgt : String)
    (hsc : s.scope.head? = some tgt) :
    (AnalyzerFires s →
      analyze_and_update s =
        Except.ok { s with task_list := s.task_list ++ [gobusterTask tgt] }) ∧
    (¬ AnalyzerFires s → analyze_and_update s = Except.ok s) := by
  cases hl : s.executed_tasks.getLast? with
  | none =>
    constructor
    · intro hf
      obtain ⟨r, hr, -⟩ := hf
      rw [hl] at hr
      exact absurd hr (by simp)
    · intro _
      unfold analyze_and_update
      simp only [hl]
  | some last =>
    constructor
    · intro hf
      obtain ⟨r, hr, htool, hstat, hsub⟩ := hf
      rw [hl] at hr
      have hlr : last = r := by simpa using hr
      subst hlr
      unfold analyze_and_update
      simp only [hl]
      rw [if_pos ⟨htool, hstat⟩]
      have hcond : (strContains (last.output.getD "") "80" ||
          strContains (last.output.getD "") "443") = true := by
        rcases hsub with hx | hx
        · simp [(strContains_iff _ _).mpr hx]
        · simp [(strContains_iff _ _).mpr hx]
      rw [if_pos hcond]
      simp only [hsc]
    · intro hnf
      unfold analyze_and_update
      simp only [hl]
      by_cases hts : last.tool = "nmap" ∧ last.status = "success"
      · rw [if_pos hts]
        cases hb : (strContains (last.output.getD "") "80" ||
            strContains (last.output.getD "") "443") with
        | true =>
          exfalso
          apply hnf
          refine ⟨last, hl, hts.1, hts.2, ?_⟩
          rcases Bool.or_eq_true_iff.mp hb with hx | hx
          · exact Or.inl ((strContains_iff _ _).mp hx)
          · exact Or.inr ((strContains_iff _ _).mp hx)
        | false =>
          rw [if_neg (by simp [hb])]
      · rw [if_neg hts]

/-- A successful nmap result whose output reports an open 443 port. -/
def webPortResult : ExecResult :=
  { tool := "nmap"
    command := "nmap -p 1-1000 example.com"
    status := "success"
    output := some "PORT STATE\n443/tcp open https"
    error := some none
    timestamp := "T0" }

/-- A state that has just recorded `webPortResult` under scope
`["example.com"]`. -/
def webPortState : SecurityState :=
  { executed_tasks := [webPortResult]
    scope := ["example.com"] }

/-- Witness for claim C8: on `webPortState` the Analyzer appends exactly
the one pending gobuster task against `"example.com"`. -/
theorem analyzer_appends_on_web_ports_witness :
    analyze_and_update webPortState =
      Except.ok { webPortState with
        task_list := webPortState.task_list ++ [gobusterTask "example.com"] } :=
  (analyzer_appends_on_web_ports webPortState "example.com" rfl).1
    ⟨webPortResult, rfl, rfl, rfl,
      Or.inr ((strContains_iff _ _).mp (by decide))⟩

/-- An example final run state for the Report Builder. -/
def finalStateEx : SecurityState :=
  { executed_tasks := [timeoutResult]
    scope := ["example.com"] }

/-- Claim C9, counterexample: the structured report embeds
`str(datetime.datetime.now())` read at *report-generation* time, so two
invocations of the Report Builder on the same final state (at the two
distinct clock readings successive calls observe) produce different
structured reports — they are not byte-identical. -/
theorem audit_report_depends_on_clock :
    generate_audit_reports finalStateEx "2025-01-01 10:00:00.000001" ≠
      generate_audit_reports finalStateEx "2025-01-01 10:00:00.000002" := by
  decide

/-- Claim C9 as amended: two Report Builder invocations on the same final
state produce structured reports that agree on every state-derived field
(`target_scope`, `executed_tasks`, `scope_violations`); the reports are
byte-identical exactly when the two calls read the same clock value, the
top-level `timestamp` field being the only difference otherwise. -/
theorem audit_report_equal_iff_same_time (s : SecurityState)
    (t1 t2 : String) :
    (generate_audit_reports s t1).target_scope =
        (generate_audit_reports s t2).target_scope ∧
    (generate_audit_reports s t1).executed_tasks =
        (generate_audit_reports s t2).executed_tasks ∧
    (generate_audit_reports s t1).scope_violations =
        (generate_audit_reports s t2).scope_violations ∧
    (generate_audit_reports s t1 = generate_audit_reports s t2 ↔ t1 = t2) := by
  refine ⟨rfl, rfl, rfl, ?_, ?_⟩
  · intro h
    exact congrArg AuditReport.timestamp h
  · intro h
    rw [h]

/-- Claim C10: with an empty scope and an instruction matching either
keyword set, the Planner's `scope[0]` lookup raises `IndexError` — the run
crashes before any task is created, never consults the Scope Guard, and
never returns a final state (rather than merely failing every target at
the guard). -/
theorem empty_scope_plan_raises (instruction : String)
    (oracle : Nat → SubprocessOutcome) (clock : Nat → String)
    (hkw : (strContains (strLower instruction) "scan" &&
            strContains (strLower instruction) "ports") = true ∨
           strContains (strLower instruction) "directories" = true) :
    plan_tasks (initState instruction []) = Except.error PyErr.indexError ∧
    run_security_scan oracle clock instruction [] =
      Except.error PyErr.indexError := by
  have hplan : plan_tasks (initState instruction []) =
      Except.error PyErr.indexError := by
    unfold plan_tasks
    have hseed : seedInstruction (initState instruction []) =
        Except.ok instruction := rfl
    simp only [hseed]
    cases hb : (strContains (strLower instruction) "scan" &&
        strContains (strLower instruction) "ports") with
    | true =>
      have h1 : planPortsStage (strLower instruction) (initState instruction []) =
          Except.error PyErr.indexError := by
        unfold planPortsStage
        rw [if_pos hb]
        rfl
      simp only [h1]
    | false =>
      have hd : strContains (strLower instruction) "directories" = true := by
        rcases hkw with hp | hd
        · rw [hb] at hp
          exact absurd hp (by simp)
        · exact hd
      have h1 : planPortsStage (strLower instruction) (initState instruction []) =
          Except.ok (initState instruction []) := by
        unfold planPortsStage
        rw [if_neg (by simp [hb])]
      simp only [h1]
      have h2 : planDirsStage (strLower instruction) (initState instruction []) =
          Except.error PyErr.indexError := by
        unfold planDirsStage
        rw [if_pos hd]
        rfl
      simp only [h2]
  refine ⟨hplan, ?_⟩
  have hstep : stepNode oracle clock Node.plan (initState instruction []) =
      Except.error PyErr.indexError := by
    unfold stepNode
    simp only [hplan]
  show runFrom oracle clock (9 + 1) Node.plan (initState instruction []) =
    Except.error PyErr.indexError
  exact runFrom_plan_error oracle clock 9 (initState instruction [])
    PyErr.indexError hstep

/-- Witness for claim C10 at instruction
`"Scan example.com for open ports"` and empty scope. -/
theorem empty_scope_plan_raises_witness :
    plan_tasks (initState "Scan example.com for open ports" []) =
        Except.error PyErr.indexError ∧
    run_security_scan (fun _ => SubprocessOutcome.timedOut) (fun _ => "T")
        "Scan example.com for open ports" [] =
      Except.error PyErr.indexError :=
  empty_scope_plan_raises "Scan example.com for open ports"
    (fun _ => SubprocessOutcome.timedOut) (fun _ => "T") (Or.inl (by decide))

end CyberTool
